import Mathlib

/-!
Shallow embedding of `src/sanx_monitor.py` (san-x-monitor).

The module monitors the San-X shop's monthly releases page.  Network and
clock effects are captured in an `Env` record: the result of an HTTP HEAD
per URL, the parsed document returned by an HTTP GET per URL, the hash
function, and the current date / timestamp.  The state file
`sanx_hash.json` is modelled as `Option StateData` (`none` = absent or
unreadable).

One structural fact about the source matters throughout: the module never
defines a function named `send_email`.  Lines 71-110 contain the intended
body of such a function (docstring `"""Send email notification"""`, a
`try`/`except` around SMTP delivery), but they sit *inside*
`get_fallback_url`, after its unconditional `return` on line 70, so they
are unreachable dead code and bind no module-level name.  Consequently the
call `send_email(...)` on line 240 of `check_sanx_updates` raises
`NameError` whenever it is evaluated.
-/

namespace SanxMonitor

/-- Calendar date as used by the script (`datetime.date.today()`):
only the year and month fields are ever read. -/
structure Date where
  year : Nat
  month : Nat
deriving DecidableEq, Repr

/-- URL prefix used for monthly feature pages (lines 19, 50, 64). -/
def baseUrl : String := "https://shop.san-x.co.jp/feature/index/"

/-- Python `f"{m:02d}"`: decimal digits of `m`, zero-padded on the left to
width 2 (numbers of two or more digits are printed as-is). -/
def pad2 (n : Nat) : String := if n < 10 then "0" ++ toString n else toString n

/-- Python `f"{year}{month:02d}_new"` (lines 18, 49, 63). -/
def period_str (y m : Nat) : String := toString y ++ pad2 m ++ "_new"

/-- Source lines 11-21, `get_current_releases_url`: the current month's
URL and period label. -/
def get_current_releases_url (d : Date) : String × String :=
  let month_str := period_str d.year d.month
  (baseUrl ++ month_str, month_str)

/-- Result of `requests.head(url, ...)`: either a response with a status
code, or a raised exception (connection error, timeout, ...). -/
inductive HeadResult where
  | ok (status : Nat)
  | err
deriving DecidableEq, Repr

/-- Source lines 23-35, `check_page_exists`: `response.status_code == 200`
on a response; the blanket `except` prints and returns `False` when the
request raised. -/
def check_page_exists (r : HeadResult) : Bool :=
  match r with
  | .ok status => status == 200
  | .err => false

/-- Source lines 42-47: previous calendar month (January wraps to December
of the previous year). -/
def prev_period (d : Date) : Nat × Nat :=
  if d.month == 1 then (d.year - 1, 12) else (d.year, d.month - 1)

/-- Source lines 56-61: next calendar month (December wraps to January of
the next year). -/
def next_period (d : Date) : Nat × Nat :=
  if d.month == 12 then (d.year + 1, 1) else (d.year, d.month + 1)

/-- Source line 49: `prev_month_str`. -/
def prev_label (d : Date) : String := period_str (prev_period d).1 (prev_period d).2

/-- Source line 50: `prev_url`. -/
def prev_url (d : Date) : String := baseUrl ++ prev_label d

/-- Source line 63: `next_month_str`. -/
def next_label (d : Date) : String := period_str (next_period d).1 (next_period d).2

/-- Source line 64: `next_url`. -/
def next_url (d : Date) : String := baseUrl ++ next_label d

/-- Source lines 37-70, `get_fallback_url`, parametrised by the result of
`check_page_exists` at each URL: try the previous month, then the next
month, then the fixed generic pair.  (Lines 71-110 of the function body
are unreachable: they follow the `return` on line 70.) -/
def get_fallback_url (d : Date) (page_exists : String → Bool) : String × String :=
  if page_exists (prev_url d) then (prev_url d, prev_label d)
  else if page_exists (next_url d) then (next_url d, next_label d)
  else ("https://shop.san-x.co.jp/category/new", "general_new")

/-- Parsed HTML document as far as `get_page_content` inspects it (lines
122-153): the text of the first content selector that matches, if any,
and the text of the `body` element, if present. -/
structure ParsedPage where
  selector_text : Option String
  body_text : Option String
deriving DecidableEq, Repr

/-- Source lines 142-153: `content` is the first selector match, else the
`body` element, else `None`; the extracted text is `""` in the last case. -/
def extract_text (p : ParsedPage) : String :=
  match p.selector_text with
  | some t => t
  | none =>
    match p.body_text with
    | some t => t
    | none => ""

/-- Contents of `sanx_hash.json`: each field is read back with
`dict.get`, so a missing or `null` field is `none`. -/
structure StateData where
  hash : Option String
  url : Option String
  month_str : Option String
  last_check : Option String
deriving DecidableEq, Repr

/-- Source lines 161-171, `load_previous_hash`: returns the four fields
`(hash, last_check, url, month_str)`; a missing or unreadable file (the
bare `except: pass`) yields four `None`s. -/
def load_previous_hash : Option StateData → Option String × Option String × Option String × Option String
  | none => (none, none, none, none)
  | some d => (d.hash, d.last_check, d.url, d.month_str)

/-- Source lines 173-183, `save_current_hash`: the record written to
`sanx_hash.json` (`last_check` is `datetime.now().isoformat()`). -/
def save_current_hash (content_hash url month_str now : String) : StateData :=
  { hash := some content_hash, url := some url, month_str := some month_str,
    last_check := some now }

/-- External effects of one run: today's date, the HEAD result per URL,
the GET result per URL (`none` = request raised or `raise_for_status`
fired), the `hashlib.md5(...).hexdigest()` function, and the timestamp. -/
structure Env where
  today : Date
  head : String → HeadResult
  fetch : String → Option ParsedPage
  md5 : String → String
  now : String

/-- The boolean `check_page_exists(url)` as called by the script. -/
def page_exists_at (env : Env) (url : String) : Bool := check_page_exists (env.head url)

/-- Source lines 112-159, `get_page_content`: `None` when the request (or
`raise_for_status`) raised; otherwise the extracted text. -/
def get_page_content (env : Env) (url : String) : Option String :=
  (env.fetch url).map extract_text

/-- Source lines 188-197: the URL/label actually monitored — the current
month's pair when its page exists, the fallback pair otherwise. -/
def resolve_url (env : Env) : String × String :=
  let cur := get_current_releases_url env.today
  if page_exists_at env cur.1 then cur
  else get_fallback_url env.today (page_exists_at env)

/-- Classification of a run, following the spec's outcome names. -/
inductive Outcome where
  | fetchFailed
  | firstRun
  | periodRollover
  | contentChanged
  | noChange
deriving DecidableEq, Repr

/-- Python truthiness of an optional string: `None` and `""` are falsy. -/
def falsyStr : Option String → Bool
  | none => true
  | some s => s == ""

/-- Source lines 217-235: the decision ladder.  `if not previous_hash` →
first run (no notification); `elif url != previous_url` → rollover,
notify (`previous_url` may be `None`, which compares unequal to any
string); `elif current_hash != previous_hash` → content changed, notify;
else no change.  Returns (outcome, should_notify). -/
def classify (previous_hash previous_url : Option String) (url current_hash : String) :
    Outcome × Bool :=
  if falsyStr previous_hash then (.firstRun, false)
  else if previous_url ≠ some url then (.periodRollover, true)
  else if previous_hash ≠ some current_hash then (.contentChanged, true)
  else (.noChange, false)

/-- Python exception escaping the run. -/
inductive PyExc where
  | nameError (missing : String)
  | valueError
deriving DecidableEq, Repr

/-- Python `month_str.split('_')[0]` (line 239): the text before the
first underscore (the whole string when it has none). -/
def label_head (s : String) : String :=
  String.mk (s.toList.takeWhile (fun c => c ≠ '_'))

/-- Numeric value of a decimal digit character. -/
def digitVal (c : Char) : Nat := c.toNat - 48

/-- Success of `datetime.strptime(s, "%Y%m")` (line 239), modelled on the
label domain occurring here: six decimal digits whose last two form a
month 1..12 succeed (`"202504"`), anything else (`"general"`) raises
`ValueError`. -/
def strptime_YYYYMM_ok (s : String) : Bool :=
  match s.toList with
  | [y1, y2, y3, y4, m1, m2] =>
    (y1.isDigit && y2.isDigit && y3.isDigit && y4.isDigit && m1.isDigit && m2.isDigit) &&
      (let m := digitVal m1 * 10 + digitVal m2
       decide (1 ≤ m) && decide (m ≤ 12))
  | _ => false

/-- Normal completion of a run: the classification reached, whether an
email was delivered, and the state file after the run. -/
structure RunOk where
  outcome : Outcome
  notified : Bool
  file : Option StateData
deriving DecidableEq, Repr

/-- Source lines 185-249, `check_sanx_updates`, as a function from the
environment and the prior state file to either a normal completion or an
escaping exception.  The notify branch models lines 239-240 exactly: line
239 raises `ValueError` when the label prefix is not parsable as `%Y%m`;
otherwise line 240 evaluates the undefined name `send_email` and raises
`NameError` — in either case before `save_current_hash` on line 248. -/
def check_sanx_updates (env : Env) (file : Option StateData) : Except PyExc RunOk :=
  let url := (resolve_url env).1
  let month_str := (resolve_url env).2
  match get_page_content env url with
  | none => .ok ⟨.fetchFailed, false, file⟩
  | some content =>
    if content = "" then .ok ⟨.fetchFailed, false, file⟩
    else
      let current_hash := env.md5 content
      let previous_hash := (load_previous_hash file).1
      let previous_url := (load_previous_hash file).2.2.1
      let oc := classify previous_hash previous_url url current_hash
      if oc.2 then
        if strptime_YYYYMM_ok (label_head month_str) then
          .error (.nameError "send_email")
        else
          .error .valueError
      else
        .ok ⟨oc.1, false, some (save_current_hash current_hash url month_str env.now)⟩

/-- State of `sanx_hash.json` after the run: an exception aborts the run
before the write on line 248, leaving the prior file in place. -/
def finalFile (prior : Option StateData) : Except PyExc RunOk → Option StateData
  | .ok r => r.file
  | .error _ => prior

/-! Concrete environments used to evaluate the embedding on specific runs. -/

/-- April 2025 run, current month's page exists, fetch succeeds. -/
def envRollover : Env where
  today := ⟨2025, 4⟩
  head := fun _ => .ok 200
  fetch := fun _ => some ⟨some "april releases", none⟩
  md5 := fun s => "md5:" ++ s
  now := "2025-04-02T00:00:00"

/-- Prior state recorded while monitoring the March 2025 page. -/
def fileMarch : Option StateData :=
  some ⟨some "md5:march releases", some (baseUrl ++ "202503_new"),
    some "202503_new", some "2025-03-05T00:00:00"⟩

/-- April 2025 run, same month as the prior state but the page content
(and hence its hash) has changed. -/
def envChanged : Env where
  today := ⟨2025, 4⟩
  head := fun _ => .ok 200
  fetch := fun _ => some ⟨some "updated goods", none⟩
  md5 := fun s => "md5:" ++ s
  now := "2025-04-09T00:00:00"

/-- Prior state for the April 2025 page with a different fingerprint. -/
def fileApril : Option StateData :=
  some ⟨some "md5:old goods", some (baseUrl ++ "202504_new"),
    some "202504_new", some "2025-04-02T00:00:00"⟩

/-- April 2025 run in which the HTTP GET of every page fails. -/
def envDown : Env where
  today := ⟨2025, 4⟩
  head := fun _ => .ok 200
  fetch := fun _ => none
  md5 := fun s => "md5:" ++ s
  now := "2025-04-02T00:00:00"

/-- April 2025 run whose GET succeeds but yields a document with no
matching content selector and no body element. -/
def envEmptyPage : Env where
  today := ⟨2025, 4⟩
  head := fun _ => .ok 200
  fetch := fun _ => some ⟨none, none⟩
  md5 := fun s => "md5:" ++ s
  now := "2025-04-02T00:00:00"

/-- Prior state file with an empty fingerprint and a URL that differs
from every shop URL. -/
def fileEmptyHash : StateData :=
  ⟨some "", some "https://other.example/", some "whatever", some "2025-03-05T00:00:00"⟩

/-- C1: the claim says `check_sanx_updates` always completes normally and
a notification-delivery failure is logged rather than raised.  On the
code this fails: in a period-rollover run (prior state on the March URL,
April page live and fetched), the notification branch evaluates the
undefined name `send_email` (its intended definition is dead code inside
`get_fallback_url`) and the run aborts with `NameError`. -/
theorem sanx_C1_notify_crash :
    check_sanx_updates envRollover fileMarch = Except.error (PyExc.nameError "send_email") := by
  rfl

/-- C2: the claim says every run with a successful fetch ends by saving
the new fingerprint, in all four outcome classes.  On the code this fails
for the notifying classes: in a CONTENT_CHANGED run the `NameError` from
the `send_email` call site aborts before `save_current_hash`, so the file
keeps the stale record and never receives the newly computed one. -/
theorem sanx_C2_state_not_saved :
    finalFile fileApril (check_sanx_updates envChanged fileApril) = fileApril ∧
      finalFile fileApril (check_sanx_updates envChanged fileApril) ≠
        some (save_current_hash ("md5:" ++ "updated goods") (baseUrl ++ "202504_new")
          "202504_new" "2025-04-09T00:00:00") := by
  have hrun : check_sanx_updates envChanged fileApril =
      Except.error (PyExc.nameError "send_email") := rfl
  refine ⟨by rw [hrun]; rfl, by rw [hrun]; decide⟩

/-- C6 counterexample: the claim says the existence check returns true
exactly on 2xx status codes, but the code tests `status_code == 200`, so
a 204 response yields `false` while 204 is 2xx. -/
theorem sanx_C6_not_2xx :
    ¬ (check_page_exists (HeadResult.ok 204) = true ↔ (200 ≤ 204 ∧ 204 < 300)) := by
  decide

/-- C6 (amended): the existence check returns true iff the HEAD request
returned a response with status code exactly 200; on any non-200 status
and on any transport error or timeout it returns false (never raises). -/
theorem sanx_C6_exists_iff_200 :
    ∀ r : HeadResult, check_page_exists r = true ↔ r = HeadResult.ok 200 := by
  intro r
  cases r with
  | ok s => simp [check_page_exists]
  | err => simp [check_page_exists]

/-- C3: when the content fetch at the resolved URL fails, the run is
classified FETCH_FAILED, no notification is sent, no exception escapes,
and the state file is left exactly as it was before the run. -/
theorem sanx_C3_fetch_failed (env : Env) (file : Option StateData)
    (h : get_page_content env (resolve_url env).1 = none) :
    check_sanx_updates env file = Except.ok ⟨.fetchFailed, false, file⟩ := by
  simp [check_sanx_updates, h]

/-- Witness for C3: a concrete run whose GET always fails aborts with the
prior file (here the March state) untouched. -/
theorem sanx_C3_fetch_failed_w :
    get_page_content envDown (resolve_url envDown).1 = none ∧
      check_sanx_updates envDown fileMarch = Except.ok ⟨.fetchFailed, false, fileMarch⟩ :=
  ⟨rfl, sanx_C3_fetch_failed envDown fileMarch rfl⟩

/-- C4: with prior state present (non-falsy stored fingerprint), a
resolved URL differing from the stored one classifies the run as
PERIOD_ROLLOVER with the notification flag set, regardless of the
fingerprints; and the fingerprint comparison (CONTENT_CHANGED / NO_CHANGE)
is reached only when the URLs are equal. -/
theorem sanx_C4_rollover (previous_hash previous_url : Option String)
    (url current_hash : String) (hprior : falsyStr previous_hash = false) :
    (previous_url ≠ some url →
      classify previous_hash previous_url url current_hash = (.periodRollover, true)) ∧
    (((classify previous_hash previous_url url current_hash).1 = Outcome.contentChanged ∨
      (classify previous_hash previous_url url current_hash).1 = Outcome.noChange) →
      previous_url = some url) := by
  constructor
  · intro hne
    simp [classify, hprior, hne]
  · intro hor
    by_cases hu : previous_url = some url
    · exact hu
    · simp [classify, hprior, hu] at hor

/-- Witness for C4: stored and current fingerprints are both "a", yet the
URL change alone yields (PERIOD_ROLLOVER, notify). -/
theorem sanx_C4_rollover_w :
    classify (some "a") (some "u1") "u2" "a" = (.periodRollover, true) :=
  (sanx_C4_rollover (some "a") (some "u1") "u2" "a" (by decide)).1 (by decide)

/-- C5: fallback resolution tries the previous period first and returns
it whenever its existence check reports true (so previous is preferred
over next when both exist); only otherwise does it consult the next
period; and when neither exists it returns the fixed generic pair.  The
function is total: it always returns one of these three pairs. -/
theorem sanx_C5_fallback_order (d : Date) (pe : String → Bool) :
    (pe (prev_url d) = true → get_fallback_url d pe = (prev_url d, prev_label d)) ∧
    (pe (prev_url d) = false → pe (next_url d) = true →
      get_fallback_url d pe = (next_url d, next_label d)) ∧
    (pe (prev_url d) = false → pe (next_url d) = false →
      get_fallback_url d pe = ("https://shop.san-x.co.jp/category/new", "general_new")) := by
  refine ⟨fun h1 => by simp [get_fallback_url, h1],
    fun h1 h2 => by simp [get_fallback_url, h1, h2],
    fun h1 h2 => by simp [get_fallback_url, h1, h2]⟩

/-- Witness for C5: when both neighbouring pages exist, the previous
month's pair is returned. -/
theorem sanx_C5_fallback_order_w :
    get_fallback_url ⟨2025, 6⟩ (fun _ => true) = (prev_url ⟨2025, 6⟩, prev_label ⟨2025, 6⟩) :=
  (sanx_C5_fallback_order ⟨2025, 6⟩ (fun _ => true)).1 rfl

/-- C9: when the HTTP fetch succeeds but text extraction yields the empty
string, the run is treated exactly like a fetch failure: FETCH_FAILED,
no notification, and the state file untouched. -/
theorem sanx_C9_empty_text (env : Env) (file : Option StateData) (p : ParsedPage)
    (hf : env.fetch (resolve_url env).1 = some p) (he : extract_text p = "") :
    check_sanx_updates env file = Except.ok ⟨.fetchFailed, false, file⟩ := by
  simp [check_sanx_updates, get_page_content, hf, he]

/-- Witness for C9: a retrieved document with no selector match and no
body extracts to `""` and the run aborts exactly like a failed fetch. -/
theorem sanx_C9_empty_text_w :
    extract_text ⟨none, none⟩ = "" ∧
      check_sanx_updates envEmptyPage none = Except.ok ⟨.fetchFailed, false, none⟩ :=
  ⟨rfl, sanx_C9_empty_text envEmptyPage none ⟨none, none⟩ rfl rfl⟩

/-- C10: first-run classification keys on the stored fingerprint being
falsy (missing, null or empty), not on absence of the state file: a
readable state file with a falsy fingerprint yields FIRST_RUN — no
notification, state overwritten with the new record — whatever URL the
file contains. -/
theorem sanx_C10_first_run (env : Env) (sd : StateData) (content : String)
    (hfalsy : falsyStr sd.hash = true)
    (hc : get_page_content env (resolve_url env).1 = some content) (hne : content ≠ "") :
    check_sanx_updates env (some sd) = Except.ok ⟨Outcome.firstRun, false,
      some (save_current_hash (env.md5 content) (resolve_url env).1 (resolve_url env).2
        env.now)⟩ := by
  simp [check_sanx_updates, hc, hne, load_previous_hash, classify, hfalsy]

/-- Witness for C10: an April 2025 run over a state file whose
fingerprint is `""` and whose URL differs from the resolved URL is still
classified FIRST_RUN and the state is overwritten. -/
theorem sanx_C10_first_run_w :
    check_sanx_updates envRollover (some fileEmptyHash) = Except.ok ⟨Outcome.firstRun, false,
        some (save_current_hash ("md5:" ++ "april releases") (baseUrl ++ "202504_new")
          "202504_new" "2025-04-02T00:00:00")⟩ ∧
      fileEmptyHash.url ≠ some (baseUrl ++ "202504_new") :=
  ⟨sanx_C10_first_run envRollover fileEmptyHash "april releases" rfl rfl (by decide),
    by decide⟩

/-- C8: saving a state record and loading it back returns exactly the
saved fingerprint, last-check timestamp, URL and period label (in the
tuple order `load_previous_hash` uses), with no field lost or altered. -/
theorem sanx_C8_roundtrip (h u m t : String) :
    load_previous_hash (some (save_current_hash h u m t)) = (some h, some t, some u, some m) :=
  rfl

/-- Length of `Nat.toDigitsCore` never falls below the accumulator's
length: digits are only ever prepended to it. -/
theorem toDigitsCore_acc_le (f : Nat) :
    ∀ (n : Nat) (l : List Char), l.length ≤ (Nat.toDigitsCore 10 f n l).length := by
  induction f with
  | zero =>
    intro n l
    simp [Nat.toDigitsCore]
  | succ f ih =>
    intro n l
    simp only [Nat.toDigitsCore]
    by_cases h : n / 10 = 0
    · simp [h]
    · simp only [h, if_false]
      exact le_trans (by simp) (ih (n / 10) (Nat.digitChar (n % 10) :: l))

/-- Lower bound for `Nat.toDigitsCore`: a number of at least `e + 1`
decimal digits, given enough fuel, produces at least `e + 1` characters
beyond the accumulator. -/
theorem toDigitsCore_le_length (e : Nat) :
    ∀ (f n : Nat) (l : List Char), 10 ^ e ≤ n → e < f →
      e + 1 + l.length ≤ (Nat.toDigitsCore 10 f n l).length := by
  induction e with
  | zero =>
    intro f n l hn hf
    cases f with
    | zero => omega
    | succ f =>
      simp only [Nat.toDigitsCore]
      by_cases h : n / 10 = 0
      · simp [h]
        omega
      · simp only [h, if_false]
        have := toDigitsCore_acc_le f (n / 10) (Nat.digitChar (n % 10) :: l)
        simp only [List.length_cons] at this
        omega
  | succ e ih =>
    intro f n l hn hf
    cases f with
    | zero => omega
    | succ f =>
      have hpow : 10 ^ e * 10 ≤ n := by
        rw [← pow_succ]
        exact hn
      have hdiv : 10 ^ e ≤ n / 10 := (Nat.le_div_iff_mul_le (by norm_num)).mpr hpow
      have hpos : 0 < 10 ^ e := Nat.pos_pow_of_pos e (by norm_num)
      have hne : ¬ n / 10 = 0 := by omega
      simp only [Nat.toDigitsCore, hne, if_false]
      have := ih f (n / 10) (Nat.digitChar (n % 10) :: l) hdiv (by omega)
      simp only [List.length_cons] at this
      omega

/-- The decimal representation of a number of at least 1000 has at least
four characters. -/
theorem repr_length_ge_four (n : Nat) (h : 1000 ≤ n) : 4 ≤ (Nat.repr n).length := by
  have hpow : 10 ^ 3 ≤ n := by norm_num; omega
  have := toDigitsCore_le_length 3 (n + 1) n [] hpow (by omega)
  simpa [Nat.repr, Nat.toDigits, String.length, List.asString] using this

/-- A year between 1000 and 9999 prints as exactly four characters. -/
theorem repr_length_eq_four (n : Nat) (h1 : 1000 ≤ n) (h2 : n ≤ 9999) :
    (Nat.repr n).length = 4 := by
  have hub : (Nat.repr n).length ≤ 4 := by
    have h4 : n < 10 ^ 4 := by norm_num; omega
    exact Nat.repr_length n 4 (by norm_num) h4
  exact le_antisymm hub (repr_length_ge_four n h1)

/-- A month number up to 12 is printed by `pad2` as exactly two
characters, zero-padded. -/
theorem pad2_length_two (m : Nat) (h : m ≤ 12) : (pad2 m).length = 2 := by
  interval_cases m <;> rfl

/-- C7: for every date (with a real 4-digit year and a valid month), the
current period label is the 4-digit year, then the 2-digit zero-padded
month, then `"_new"`; January is padded to `"01"`; and the prior/next
period computations roll over year boundaries: at a January 2025 date the
previous period label is `"202412_new"`, and at a December 2024 date the
next period label is `"202501_new"`. -/
theorem sanx_C7_period_labels :
    (∀ d : Date, 1000 ≤ d.year → d.year ≤ 9999 → d.month ≤ 12 →
      (get_current_releases_url d).2 = toString d.year ++ pad2 d.month ++ "_new" ∧
        (toString d.year).length = 4 ∧ (pad2 d.month).length = 2) ∧
    pad2 1 = "01" ∧
    (get_fallback_url ⟨2025, 1⟩ (fun _ => true)).2 = "202412_new" ∧
    (get_fallback_url ⟨2024, 12⟩ (fun u => u == next_url ⟨2024, 12⟩)).2 = "202501_new" := by
  refine ⟨?_, rfl, rfl, rfl⟩
  intro d hy1 hy2 hm
  exact ⟨rfl, repr_length_eq_four d.year hy1 hy2, pad2_length_two d.month hm⟩

/-- Witness for C7: the label for January 2025 decomposes as stated, with
a 4-character year part and a 2-character month part. -/
theorem sanx_C7_period_labels_w :
    (get_current_releases_url ⟨2025, 1⟩).2 = toString (2025 : Nat) ++ pad2 1 ++ "_new" ∧
      (toString (2025 : Nat)).length = 4 ∧ (pad2 1).length = 2 :=
  sanx_C7_period_labels.1 ⟨2025, 1⟩ (by decide) (by decide) (by decide)

end SanxMonitor
